import Mathlib

/-!
Verification of the coda-mcp tool handlers: a shallow embedding of the coda-mcp MCP server (TypeScript) in Lean 4.

The embedding covers:
* the `ToolResult` envelope returned by every tool handler;
* the request bodies the handlers build for the generated Coda REST client
  (`createPage`, `updatePage`, `listPages` queries);
* the ten tool handlers registered by `createMcpServer`, modelled as pure
  functions over an explicit remote-client interface `RemoteClient σ`
  (state type `σ` threads the stubbed remote state, and every handler
  additionally returns the list of remote calls it issued);
* the JS-truthiness-sensitive pieces (`nextPageToken ? undefined : limit`,
  `if (!content)`, `if (!providedToken)`) modelled with an explicit
  `truthy` test on optional strings;
* the line splitting `content.split(/\r?\n/)` used by `coda_peek_page`;
* the startup configuration object (`src/config.ts`) and the shared-secret
  auth gate of the serverless entry point.

Remote calls are fallible: a call either returns a value (`Except.ok`) or
throws (`Except.error e`), where `e` is the string the thrown value
interpolates to in a JS template literal.  A locally thrown
`new Error(m)` interpolates to `"Error: " ++ m`.
-/

namespace CodaMcp

/-- One item of a tool result's `content` array; in this system the type tag
is always `"text"`. -/
structure ContentItem where
  type : String
  text : String
deriving DecidableEq, Repr

/-- The uniform result envelope every tool handler returns. A missing
`isError` field on the JS side is modelled as `false`. -/
structure ToolResult where
  content : List ContentItem
  isError : Bool
deriving DecidableEq, Repr

/-- Successful handler result: one text content item, no error flag. -/
def textResult (s : String) : ToolResult :=
  ⟨[⟨"text", s⟩], false⟩

/-- Caught-failure handler result: `Failed to <operation>: <cause>` with the
error flag set.  This is the shape built by every `catch` block. -/
def errorResult (op cause : String) : ToolResult :=
  ⟨[⟨"text", "Failed to " ++ op ++ ": " ++ cause⟩], true⟩

/-- The text of the (single) content item of a result. -/
def resultText (r : ToolResult) : String :=
  (r.content.headD ⟨"text", ""⟩).text

/-- JS truthiness of an optional string: `undefined` and `""` are falsy. -/
def truthy : Option String → Bool
  | none => false
  | some s => !(s == "")

/-- Payload `canvasContent`: `{ format: "markdown", content }`.  The content
is optional because `coda_duplicate_page` forwards the possibly-undefined
result of `getPageContent` without a check. -/
structure CanvasContent where
  format : String
  content : Option String
deriving DecidableEq, Repr

/-- Payload `pageContent` of a create-page body:
`{ type: "canvas", canvasContent }`. -/
structure PageContentPayload where
  type : String
  canvasContent : CanvasContent
deriving DecidableEq, Repr

/-- Body of a `createPage` remote call. -/
structure CreatePageBody where
  name : String
  parentPageId : Option String
  pageContent : PageContentPayload
deriving DecidableEq, Repr

/-- Payload `contentUpdate` of an `updatePage` body. -/
structure ContentUpdate where
  insertionMode : String
  canvasContent : CanvasContent
deriving DecidableEq, Repr

/-- Body of an `updatePage` remote call: a metadata patch (`name`) and/or a
content update; absent fields are `none`. -/
structure UpdatePageBody where
  name : Option String
  contentUpdate : Option ContentUpdate
deriving DecidableEq, Repr

/-- Query of a `listPages` remote call. -/
structure ListPagesQuery where
  limit : Option Nat
  pageToken : Option String
deriving DecidableEq, Repr

/-- A remote-client call as observed by a counting/tracing stub. -/
inductive RemoteCall where
  | listDocs (query : Option String)
  | listPages (docId : String) (q : ListPagesQuery)
  | createPage (docId : String) (body : CreatePageBody)
  | updatePage (docId pageIdOrName : String) (body : UpdatePageBody)
  | resolveBrowserLink (url : String)
  | getPageContent (docId pageIdOrName : String)
deriving DecidableEq, Repr

/-- Whether a remote call is a `createPage` invocation. -/
def isCreatePage : RemoteCall → Bool
  | RemoteCall.createPage _ _ => true
  | _ => false

/-- The remote document client, as the handlers see it.  `σ` is the state of
a stubbed remote; each operation returns the new state and either the
serialized response data (`Except.ok`) or the thrown error's string form
(`Except.error`).

The field `getPageContent` is the helper from `src/client/helpers`.
Modelled from the spec: the helper resolves the page content export
(submit export, poll, fetch result) and returns the text, or `undefined`
when no usable result is produced; it may also throw. -/
structure RemoteClient (σ : Type) where
  listDocs : σ → Option String → σ × Except String String
  listPages : σ → String → ListPagesQuery → σ × Except String String
  createPage : σ → String → CreatePageBody → σ × Except String String
  updatePage : σ → String → String → UpdatePageBody → σ × Except String String
  resolveBrowserLink : σ → String → σ × Except String String
  getPageContent : σ → String → String → σ × Except String (Option String)

/-! ## Request-body construction (verbatim from the handlers) -/

/-- Query built by `coda_list_pages`: `const listLimit = nextPageToken ? undefined : limit` together with
`query: { limit: listLimit, pageToken: nextPageToken ?? undefined }`. -/
def listPagesQueryOf (limit : Option Nat) (nextPageToken : Option String) :
    ListPagesQuery :=
  ⟨if truthy nextPageToken then none else limit, nextPageToken⟩

/-- Body built by `coda_create_page`:
`{ name, parentPageId: parentPageId ?? undefined,
   pageContent: { type: "canvas",
                  canvasContent: { format: "markdown", content: content ?? " " } } }`. -/
def createPageBodyOf (name : String) (content : Option String)
    (parentPageId : Option String) : CreatePageBody :=
  ⟨name, parentPageId, ⟨"canvas", ⟨"markdown", some (content.getD " ")⟩⟩⟩

/-- Body built by `coda_replace_page_content`:
`{ contentUpdate: { insertionMode: "replace",
                    canvasContent: { format: "markdown", content } } }`. -/
def replacePageBodyOf (content : String) : UpdatePageBody :=
  ⟨none, some ⟨"replace", ⟨"markdown", some content⟩⟩⟩

/-- Body built by `coda_append_page_content` (insertion mode `"append"`). -/
def appendPageBodyOf (content : String) : UpdatePageBody :=
  ⟨none, some ⟨"append", ⟨"markdown", some content⟩⟩⟩

/-- Body built by `coda_rename_page`: `{ name: newName }` only. -/
def renamePageBodyOf (newName : String) : UpdatePageBody :=
  ⟨some newName, none⟩

/-- Body built by `coda_duplicate_page`:
`{ name: newName, pageContent: { type: "canvas",
   canvasContent: { format: "markdown", content: pageContent } } }`
where `pageContent` is the raw (possibly undefined) helper result. -/
def duplicatePageBodyOf (newName : String) (pageContent : Option String) :
    CreatePageBody :=
  ⟨newName, none, ⟨"canvas", ⟨"markdown", pageContent⟩⟩⟩

/-! ## Line splitting for `coda_peek_page` -/

/-- Worker for `splitLinesJS`: scans the character list, cutting at `"\r\n"`
or at a bare `"\n"`; a carriage return not followed by a line feed is an
ordinary character, exactly as for the JS regex `/\r?\n/`. -/
def splitLinesAux : List Char → List Char → List String
  | [], acc => [String.mk acc.reverse]
  | '\r' :: '\n' :: rest, acc => String.mk acc.reverse :: splitLinesAux rest []
  | '\n' :: rest, acc => String.mk acc.reverse :: splitLinesAux rest []
  | ch :: rest, acc => splitLinesAux rest (ch :: acc)

/-- Split `content.split(/\r?\n/)` from the `coda_peek_page` handler. -/
def splitLinesJS (s : String) : List String :=
  splitLinesAux s.data []

/-- Preview `content.split(/\r?\n/).slice(0, numLines).join("\n")`. -/
def peekPreview (content : String) (numLines : Nat) : String :=
  String.intercalate "\n" ((splitLinesJS content).take numLines)

/-! ## Tool handlers

Each handler returns the new stub state, the `ToolResult` it produced, and
the list of remote calls it issued, in order. -/

/-- Handler of `coda_list_documents`. -/
def coda_list_documents {σ : Type} (c : RemoteClient σ) (s : σ)
    (query : Option String) : σ × ToolResult × List RemoteCall :=
  let r :=
    match c.listDocs s query with
    | (s1, Except.ok data) => (s1, textResult data)
    | (s1, Except.error e) => (s1, errorResult "list documents" e)
  (r.1, r.2, [RemoteCall.listDocs query])

/-- Handler of `coda_list_pages`. -/
def coda_list_pages {σ : Type} (c : RemoteClient σ) (s : σ) (docId : String)
    (limit : Option Nat) (nextPageToken : Option String) :
    σ × ToolResult × List RemoteCall :=
  let q := listPagesQueryOf limit nextPageToken
  let r :=
    match c.listPages s docId q with
    | (s1, Except.ok data) => (s1, textResult data)
    | (s1, Except.error e) => (s1, errorResult "list pages" e)
  (r.1, r.2, [RemoteCall.listPages docId q])

/-- Handler of `coda_create_page`. -/
def coda_create_page {σ : Type} (c : RemoteClient σ) (s : σ)
    (docId name : String) (content parentPageId : Option String) :
    σ × ToolResult × List RemoteCall :=
  let body := createPageBodyOf name content parentPageId
  let r :=
    match c.createPage s docId body with
    | (s1, Except.ok data) => (s1, textResult data)
    | (s1, Except.error e) => (s1, errorResult "create page" e)
  (r.1, r.2, [RemoteCall.createPage docId body])

/-- Handler of `coda_get_page_content`: only an `undefined` helper result is
converted to the locally thrown `Error("Unknown error occurred")`. -/
def coda_get_page_content {σ : Type} (c : RemoteClient σ) (s : σ)
    (docId pageIdOrName : String) : σ × ToolResult × List RemoteCall :=
  let r :=
    match c.getPageContent s docId pageIdOrName with
    | (s1, Except.error e) => (s1, errorResult "get page content" e)
    | (s1, Except.ok none) =>
        (s1, errorResult "get page content" "Error: Unknown error occurred")
    | (s1, Except.ok (some content)) => (s1, textResult content)
  (r.1, r.2, [RemoteCall.getPageContent docId pageIdOrName])

/-- Handler of `coda_replace_page_content`. -/
def coda_replace_page_content {σ : Type} (c : RemoteClient σ) (s : σ)
    (docId pageIdOrName content : String) : σ × ToolResult × List RemoteCall :=
  let body := replacePageBodyOf content
  let r :=
    match c.updatePage s docId pageIdOrName body with
    | (s1, Except.ok data) => (s1, textResult data)
    | (s1, Except.error e) => (s1, errorResult "replace page content" e)
  (r.1, r.2, [RemoteCall.updatePage docId pageIdOrName body])

/-- Handler of `coda_append_page_content`. -/
def coda_append_page_content {σ : Type} (c : RemoteClient σ) (s : σ)
    (docId pageIdOrName content : String) : σ × ToolResult × List RemoteCall :=
  let body := appendPageBodyOf content
  let r :=
    match c.updatePage s docId pageIdOrName body with
    | (s1, Except.ok data) => (s1, textResult data)
    | (s1, Except.error e) => (s1, errorResult "append page content" e)
  (r.1, r.2, [RemoteCall.updatePage docId pageIdOrName body])

/-- Handler of `coda_duplicate_page`: reads the existing content, then
creates the new page; a throw in the read step skips the create. -/
def coda_duplicate_page {σ : Type} (c : RemoteClient σ) (s : σ)
    (docId pageIdOrName newName : String) : σ × ToolResult × List RemoteCall :=
  match c.getPageContent s docId pageIdOrName with
  | (s1, Except.error e) =>
      (s1, errorResult "duplicate page" e,
        [RemoteCall.getPageContent docId pageIdOrName])
  | (s1, Except.ok pageContent) =>
      let body := duplicatePageBodyOf newName pageContent
      match c.createPage s1 docId body with
      | (s2, Except.ok data) =>
          (s2, textResult data,
            [RemoteCall.getPageContent docId pageIdOrName,
             RemoteCall.createPage docId body])
      | (s2, Except.error e) =>
          (s2, errorResult "duplicate page" e,
            [RemoteCall.getPageContent docId pageIdOrName,
             RemoteCall.createPage docId body])

/-- Handler of `coda_rename_page`. -/
def coda_rename_page {σ : Type} (c : RemoteClient σ) (s : σ)
    (docId pageIdOrName newName : String) : σ × ToolResult × List RemoteCall :=
  let body := renamePageBodyOf newName
  let r :=
    match c.updatePage s docId pageIdOrName body with
    | (s1, Except.ok data) => (s1, textResult data)
    | (s1, Except.error e) => (s1, errorResult "rename page" e)
  (r.1, r.2, [RemoteCall.updatePage docId pageIdOrName body])

/-- Handler of `coda_peek_page`: `if (!content) throw new Error(...)` treats
both an undefined and an empty-string content as failure. -/
def coda_peek_page {σ : Type} (c : RemoteClient σ) (s : σ)
    (docId pageIdOrName : String) (numLines : Nat) :
    σ × ToolResult × List RemoteCall :=
  let r :=
    match c.getPageContent s docId pageIdOrName with
    | (s1, Except.error e) => (s1, errorResult "peek page" e)
    | (s1, Except.ok none) =>
        (s1, errorResult "peek page" "Error: Unknown error has occurred")
    | (s1, Except.ok (some content)) =>
        if content = "" then
          (s1, errorResult "peek page" "Error: Unknown error has occurred")
        else
          (s1, textResult (peekPreview content numLines))
  (r.1, r.2, [RemoteCall.getPageContent docId pageIdOrName])

/-- Handler of `coda_resolve_link`. -/
def coda_resolve_link {σ : Type} (c : RemoteClient σ) (s : σ) (url : String) :
    σ × ToolResult × List RemoteCall :=
  let r :=
    match c.resolveBrowserLink s url with
    | (s1, Except.ok data) => (s1, textResult data)
    | (s1, Except.error e) => (s1, errorResult "resolve link" e)
  (r.1, r.2, [RemoteCall.resolveBrowserLink url])

/-! ## Concrete stub clients -/

/-- Stub client whose every operation throws, interpolating to `e`. -/
def failClient (e : String) : RemoteClient Unit where
  listDocs := fun s _ => (s, Except.error e)
  listPages := fun s _ _ => (s, Except.error e)
  createPage := fun s _ _ => (s, Except.error e)
  updatePage := fun s _ _ _ => (s, Except.error e)
  resolveBrowserLink := fun s _ => (s, Except.error e)
  getPageContent := fun s _ _ => (s, Except.error e)

/-- Stub client whose every operation succeeds; the content export always
yields `content`. -/
def constClient (content : Option String) : RemoteClient Unit where
  listDocs := fun s _ => (s, Except.ok "ok")
  listPages := fun s _ _ => (s, Except.ok "ok")
  createPage := fun s _ _ => (s, Except.ok "ok")
  updatePage := fun s _ _ _ => (s, Except.ok "ok")
  resolveBrowserLink := fun s _ => (s, Except.ok "ok")
  getPageContent := fun s _ _ => (s, Except.ok content)

/-- Stub client whose content export succeeds but whose `createPage`
throws, interpolating to `e`. -/
def createFailClient (e : String) : RemoteClient Unit where
  listDocs := fun s _ => (s, Except.ok "ok")
  listPages := fun s _ _ => (s, Except.ok "ok")
  createPage := fun s _ _ => (s, Except.error e)
  updatePage := fun s _ _ _ => (s, Except.ok "ok")
  resolveBrowserLink := fun s _ => (s, Except.ok "ok")
  getPageContent := fun s _ _ => (s, Except.ok (some "x"))

/-- Storing stub client: the state is the stored page content (`none` when
nothing was ever written).  `updatePage` stores the content carried by the
content update, and the content export returns whatever is stored. -/
def stubClient : RemoteClient (Option String) where
  listDocs := fun s _ => (s, Except.ok "ok")
  listPages := fun s _ _ => (s, Except.ok "ok")
  createPage := fun s _ _ => (s, Except.ok "ok")
  updatePage := fun s _ _ body =>
    match body.contentUpdate with
    | some cu => (cu.canvasContent.content, Except.ok "ok")
    | none => (s, Except.ok "ok")
  resolveBrowserLink := fun s _ => (s, Except.ok "ok")
  getPageContent := fun s _ _ => (s, Except.ok s)

/-! ## Startup configuration (`src/config.ts`) and entry points -/

/-- JS template-literal interpolation of a possibly-undefined string. -/
def jsInterp : Option String → String
  | some s => s
  | none => "undefined"

/-- The runtime shape of the `config` object: `process.env.CODA_API_TOKEN!`
is only a type-level non-null assertion, so at runtime the field holds
whatever the environment provides, possibly `undefined`. -/
structure Config where
  codaApiToken : Option String
deriving DecidableEq, Repr

/-- From `config.ts`: `export const config = { codaApiToken: process.env.CODA_API_TOKEN! }`.
No check is performed. -/
def configOf (env : String → Option String) : Config :=
  ⟨env "CODA_API_TOKEN"⟩

/-- Observable startup behavior of the entry points with respect to the
credential: whether the process exits before accepting sessions, and the
`Authorization` header installed on the remote client. -/
structure StartupResult where
  exitedBeforeSessions : Bool
  authorizationHeader : String
deriving DecidableEq, Repr

/-- Startup as written: every entry point unconditionally installs
`Authorization: Bearer ${config.codaApiToken}` via `client.setConfig` and
proceeds to accept sessions; there is no credential check and no exit
path tied to the configuration. -/
def startupOf (env : String → Option String) : StartupResult :=
  ⟨false, "Bearer " ++ jsInterp (configOf env).codaApiToken⟩

/-! ## Shared-secret auth gate of the serverless entry point -/

/-- Outcome of the auth gate in front of the channel-open endpoint:
`status = some 401` when the request is rejected, `none` when it proceeds;
`sessionOpened` records whether an SSE session is established. -/
structure GateOutcome where
  status : Option Nat
  sessionOpened : Bool
deriving DecidableEq, Repr

/-- The token check of the serverless handler:
`const expectedToken = process.env.MCP_AUTH_TOKEN; if (expectedToken) { ... }`
— the whole check is skipped when the secret is falsy (unset or empty);
a falsy provided token yields 401 (missing), a non-matching one yields
401 (invalid), a matching one proceeds to open the session. -/
def mcpGate (expectedToken providedToken : Option String) : GateOutcome :=
  if truthy expectedToken then
    if truthy providedToken then
      if providedToken = expectedToken then ⟨none, true⟩
      else ⟨some 401, false⟩
    else ⟨some 401, false⟩
  else ⟨none, true⟩

/-! ## Claim theorems -/

/-- C1: for every registered tool, when the remote client call throws, the
handler catches the exception and returns a `ToolResult` with
`isError = true` whose single content item's text is
`"Failed to <operation>: "` followed by the cause; no exception escapes a
handler (the handlers are total functions into `ToolResult`).  One
conjunct per registered tool (two for `coda_duplicate_page`, whose two
remote steps can each throw), plus the characterization of the error
envelope's shape. -/
theorem C1_handler_error_envelope :
    (∀ (σ : Type) (c : RemoteClient σ) (s s1 : σ) (q : Option String) (e : String),
      c.listDocs s q = (s1, Except.error e) →
      (coda_list_documents c s q).2.1 = errorResult "list documents" e) ∧
    (∀ (σ : Type) (c : RemoteClient σ) (s s1 : σ) (d : String)
        (lim : Option Nat) (tok : Option String) (e : String),
      c.listPages s d (listPagesQueryOf lim tok) = (s1, Except.error e) →
      (coda_list_pages c s d lim tok).2.1 = errorResult "list pages" e) ∧
    (∀ (σ : Type) (c : RemoteClient σ) (s s1 : σ) (d nm : String)
        (ct pid : Option String) (e : String),
      c.createPage s d (createPageBodyOf nm ct pid) = (s1, Except.error e) →
      (coda_create_page c s d nm ct pid).2.1 = errorResult "create page" e) ∧
    (∀ (σ : Type) (c : RemoteClient σ) (s s1 : σ) (d p e : String),
      c.getPageContent s d p = (s1, Except.error e) →
      (coda_get_page_content c s d p).2.1 = errorResult "get page content" e) ∧
    (∀ (σ : Type) (c : RemoteClient σ) (s s1 : σ) (d p ct e : String),
      c.updatePage s d p (replacePageBodyOf ct) = (s1, Except.error e) →
      (coda_replace_page_content c s d p ct).2.1 =
        errorResult "replace page content" e) ∧
    (∀ (σ : Type) (c : RemoteClient σ) (s s1 : σ) (d p ct e : String),
      c.updatePage s d p (appendPageBodyOf ct) = (s1, Except.error e) →
      (coda_append_page_content c s d p ct).2.1 =
        errorResult "append page content" e) ∧
    (∀ (σ : Type) (c : RemoteClient σ) (s s1 : σ) (d p nm e : String),
      c.getPageContent s d p = (s1, Except.error e) →
      (coda_duplicate_page c s d p nm).2.1 = errorResult "duplicate page" e) ∧
    (∀ (σ : Type) (c : RemoteClient σ) (s s1 s2 : σ) (d p nm : String)
        (pc : Option String) (e : String),
      c.getPageContent s d p = (s1, Except.ok pc) →
      c.createPage s1 d (duplicatePageBodyOf nm pc) = (s2, Except.error e) →
      (coda_duplicate_page c s d p nm).2.1 = errorResult "duplicate page" e) ∧
    (∀ (σ : Type) (c : RemoteClient σ) (s s1 : σ) (d p nm e : String),
      c.updatePage s d p (renamePageBodyOf nm) = (s1, Except.error e) →
      (coda_rename_page c s d p nm).2.1 = errorResult "rename page" e) ∧
    (∀ (σ : Type) (c : RemoteClient σ) (s s1 : σ) (d p e : String) (n : Nat),
      c.getPageContent s d p = (s1, Except.error e) →
      (coda_peek_page c s d p n).2.1 = errorResult "peek page" e) ∧
    (∀ (σ : Type) (c : RemoteClient σ) (s s1 : σ) (u e : String),
      c.resolveBrowserLink s u = (s1, Except.error e) →
      (coda_resolve_link c s u).2.1 = errorResult "resolve link" e) ∧
    (∀ op e : String,
      errorResult op e =
        ⟨[⟨"text", "Failed to " ++ op ++ ": " ++ e⟩], true⟩) := by
  refine ⟨?_, ?_, ?_, ?_, ?_, ?_, ?_, ?_, ?_, ?_, ?_, ?_⟩
  · intro σ c s s1 q e h; simp [coda_list_documents, h]
  · intro σ c s s1 d lim tok e h; simp [coda_list_pages, h]
  · intro σ c s s1 d nm ct pid e h; simp [coda_create_page, h]
  · intro σ c s s1 d p e h; simp [coda_get_page_content, h]
  · intro σ c s s1 d p ct e h; simp [coda_replace_page_content, h]
  · intro σ c s s1 d p ct e h; simp [coda_append_page_content, h]
  · intro σ c s s1 d p nm e h; simp [coda_duplicate_page, h]
  · intro σ c s s1 s2 d p nm pc e h1 h2; simp [coda_duplicate_page, h1, h2]
  · intro σ c s s1 d p nm e h; simp [coda_rename_page, h]
  · intro σ c s s1 d p e n h; simp [coda_peek_page, h]
  · intro σ c s s1 u e h; simp [coda_resolve_link, h]
  · intro op e; rfl

/-- Witness for C1: every handler, run against the all-throwing stub client
(and, for the second duplicate step, against the stub whose create call
throws), produces the error envelope. -/
theorem C1_handler_error_envelope_witness :
    (coda_list_documents (failClient "boom") () none).2.1 =
      errorResult "list documents" "boom" ∧
    (coda_list_pages (failClient "boom") () "d" (some 25) none).2.1 =
      errorResult "list pages" "boom" ∧
    (coda_create_page (failClient "boom") () "d" "n" none none).2.1 =
      errorResult "create page" "boom" ∧
    (coda_get_page_content (failClient "boom") () "d" "p").2.1 =
      errorResult "get page content" "boom" ∧
    (coda_replace_page_content (failClient "boom") () "d" "p" "c").2.1 =
      errorResult "replace page content" "boom" ∧
    (coda_append_page_content (failClient "boom") () "d" "p" "c").2.1 =
      errorResult "append page content" "boom" ∧
    (coda_duplicate_page (failClient "boom") () "d" "p" "n").2.1 =
      errorResult "duplicate page" "boom" ∧
    (coda_duplicate_page (createFailClient "boom") () "d" "p" "n").2.1 =
      errorResult "duplicate page" "boom" ∧
    (coda_rename_page (failClient "boom") () "d" "p" "n").2.1 =
      errorResult "rename page" "boom" ∧
    (coda_peek_page (failClient "boom") () "d" "p" 3).2.1 =
      errorResult "peek page" "boom" ∧
    (coda_resolve_link (failClient "boom") () "u").2.1 =
      errorResult "resolve link" "boom" ∧
    errorResult "list documents" "boom" =
      ⟨[⟨"text", "Failed to " ++ "list documents" ++ ": " ++ "boom"⟩], true⟩ := by
  have h := C1_handler_error_envelope
  exact ⟨h.1 Unit (failClient "boom") () () none "boom" rfl,
    h.2.1 Unit (failClient "boom") () () "d" (some 25) none "boom" rfl,
    h.2.2.1 Unit (failClient "boom") () () "d" "n" none none "boom" rfl,
    h.2.2.2.1 Unit (failClient "boom") () () "d" "p" "boom" rfl,
    h.2.2.2.2.1 Unit (failClient "boom") () () "d" "p" "c" "boom" rfl,
    h.2.2.2.2.2.1 Unit (failClient "boom") () () "d" "p" "c" "boom" rfl,
    h.2.2.2.2.2.2.1 Unit (failClient "boom") () () "d" "p" "n" "boom" rfl,
    h.2.2.2.2.2.2.2.1 Unit (createFailClient "boom") () () () "d" "p" "n"
      (some "x") "boom" rfl rfl,
    h.2.2.2.2.2.2.2.2.1 Unit (failClient "boom") () () "d" "p" "n" "boom" rfl,
    h.2.2.2.2.2.2.2.2.2.1 Unit (failClient "boom") () () "d" "p" "boom" 3 rfl,
    h.2.2.2.2.2.2.2.2.2.2.1 Unit (failClient "boom") () () "u" "boom" rfl,
    h.2.2.2.2.2.2.2.2.2.2.2 "list documents" "boom"⟩

/-- C2 (counterexample): the claim quantifies over every page content
string, but with content `""` (and `numLines = 2`) the handler does not
return the first lines joined (which would be `""`): `if (!content)`
treats the empty string as falsy, so the handler returns an error result
instead. -/
theorem C2_peek_empty_content_counterexample :
    (coda_peek_page (constClient (some "")) () "d" "p" 2).2.1.isError = true ∧
    resultText (coda_peek_page (constClient (some "")) () "d" "p" 2).2.1 ≠
      String.intercalate "\n" ((splitLinesJS "").take 2) := by
  exact ⟨rfl, by decide⟩

/-- C2 (amended): for every non-empty page content string and every
`numLines`, `coda_peek_page` returns the content split on line breaks
(accepting both bare `"\n"` and `"\r\n"` endings), truncated to the first
`numLines` lines and joined with a single `"\n"`; in particular, content
`"a\nb\nc\nd"` with `numLines = 2` gives exactly `"a\nb"`, and the
splitter handles mixed line endings. -/
theorem C2_peek_first_lines :
    (∀ (σ : Type) (c : RemoteClient σ) (s s1 : σ) (d p content : String) (n : Nat),
      content ≠ "" →
      c.getPageContent s d p = (s1, Except.ok (some content)) →
      (coda_peek_page c s d p n).2.1 =
        textResult (String.intercalate "\n" ((splitLinesJS content).take n))) ∧
    splitLinesJS "a\r\nb\nc\r\nd" = ["a", "b", "c", "d"] ∧
    (coda_peek_page (constClient (some "a\nb\nc\nd")) () "d" "p" 2).2.1 =
      textResult "a\nb" := by
  refine ⟨?_, by decide, by decide⟩
  intro σ c s s1 d p content n hne h
  simp [coda_peek_page, h, hne, peekPreview]

/-- Witness for C2: the amended statement applied at the concrete content
`"a\nb\nc\nd"` and `numLines = 2`. -/
theorem C2_peek_first_lines_witness :
    (coda_peek_page (constClient (some "a\nb\nc\nd")) () "d" "p" 2).2.1 =
      textResult
        (String.intercalate "\n" ((splitLinesJS "a\nb\nc\nd").take 2)) :=
  C2_peek_first_lines.1 Unit (constClient (some "a\nb\nc\nd")) () ()
    "d" "p" "a\nb\nc\nd" 2 (by decide) rfl

/-- C3 (counterexample): with `limit = 25` and `nextPageToken = ""` — both
arguments supplied and schema-valid — the remote `listPages` call
receives `limit = 25`, not `undefined`: the ternary
`nextPageToken ? undefined : limit` tests JS truthiness, and the empty
string is falsy. -/
theorem C3_empty_token_counterexample :
    (coda_list_pages (constClient none) () "d" (some 25) (some "")).2.2 =
      [RemoteCall.listPages "d" ⟨some 25, some ""⟩] ∧
    (some 25 : Option Nat) ≠ none := by
  exact ⟨rfl, by decide⟩

/-- C3 (amended): when a non-empty `nextPageToken` is supplied, the remote
`listPages` call receives `limit = undefined` and the supplied token
(token precedence); when `nextPageToken` is absent, the supplied limit is
forwarded unchanged. -/
theorem C3_token_precedence :
    (∀ (σ : Type) (c : RemoteClient σ) (s : σ) (d : String)
        (lim : Option Nat) (t : String),
      t ≠ "" →
      (coda_list_pages c s d lim (some t)).2.2 =
        [RemoteCall.listPages d ⟨none, some t⟩]) ∧
    (∀ (σ : Type) (c : RemoteClient σ) (s : σ) (d : String) (lim : Option Nat),
      (coda_list_pages c s d lim none).2.2 =
        [RemoteCall.listPages d ⟨lim, none⟩]) := by
  constructor
  · intro σ c s d lim t ht
    simp [coda_list_pages, listPagesQueryOf, truthy, ht]
  · intro σ c s d lim
    rfl

/-- Witness for C3: the amended statement applied at limit 25 and the
non-empty token `"tok"`, and at an absent token. -/
theorem C3_token_precedence_witness :
    (coda_list_pages (constClient none) () "d" (some 25) (some "tok")).2.2 =
      [RemoteCall.listPages "d" ⟨none, some "tok"⟩] ∧
    (coda_list_pages (constClient none) () "d" (some 25) none).2.2 =
      [RemoteCall.listPages "d" ⟨some 25, none⟩] :=
  ⟨C3_token_precedence.1 Unit (constClient none) () "d" (some 25) "tok"
      (by decide),
    C3_token_precedence.2 Unit (constClient none) () "d" (some 25)⟩

/-- C4: when `content` is omitted, `coda_create_page` sends a canvas
markdown payload whose content is the single-space string `" "` — never
the empty string — and when `content` is supplied it is forwarded
unchanged. -/
theorem C4_create_page_default_content :
    (∀ (σ : Type) (c : RemoteClient σ) (s : σ) (d nm : String)
        (pid : Option String),
      (coda_create_page c s d nm none pid).2.2 =
        [RemoteCall.createPage d ⟨nm, pid, ⟨"canvas", ⟨"markdown", some " "⟩⟩⟩]) ∧
    (" " : String) ≠ "" ∧
    (∀ (σ : Type) (c : RemoteClient σ) (s : σ) (d nm ct : String)
        (pid : Option String),
      (coda_create_page c s d nm (some ct) pid).2.2 =
        [RemoteCall.createPage d ⟨nm, pid, ⟨"canvas", ⟨"markdown", some ct⟩⟩⟩]) := by
  refine ⟨?_, by decide, ?_⟩
  · intro σ c s d nm pid; rfl
  · intro σ c s d nm ct pid; rfl

/-- C5: when the content-retrieval step of `coda_duplicate_page` throws,
the handler returns an error result and the remote `createPage`
operation is invoked zero times (the only remote call is the content
read); when the read succeeds, the create is issued afterwards with the
retrieved content. -/
theorem C5_duplicate_no_create_on_failed_read :
    (∀ (σ : Type) (c : RemoteClient σ) (s s1 : σ) (d p nm e : String),
      c.getPageContent s d p = (s1, Except.error e) →
      (coda_duplicate_page c s d p nm).2.1.isError = true ∧
      (coda_duplicate_page c s d p nm).2.2 = [RemoteCall.getPageContent d p] ∧
      (coda_duplicate_page c s d p nm).2.2.countP isCreatePage = 0) ∧
    (∀ (σ : Type) (c : RemoteClient σ) (s s1 : σ) (d p nm : String)
        (pc : Option String),
      c.getPageContent s d p = (s1, Except.ok pc) →
      (coda_duplicate_page c s d p nm).2.2 =
        [RemoteCall.getPageContent d p,
         RemoteCall.createPage d (duplicatePageBodyOf nm pc)]) := by
  constructor
  · intro σ c s s1 d p nm e h
    refine ⟨?_, ?_, ?_⟩ <;>
      simp [coda_duplicate_page, h, errorResult, isCreatePage, List.countP,
        List.countP.go]
  · intro σ c s s1 d p nm pc h
    rcases h2 : c.createPage s1 d (duplicatePageBodyOf nm pc) with ⟨s2, r⟩
    cases r <;> simp [coda_duplicate_page, h, h2]

/-- Witness for C5: against the all-throwing stub the duplicate handler
fails with no create call; against the all-succeeding stub the create
call follows the read. -/
theorem C5_duplicate_no_create_on_failed_read_witness :
    ((coda_duplicate_page (failClient "boom") () "d" "p" "n").2.1.isError = true ∧
      (coda_duplicate_page (failClient "boom") () "d" "p" "n").2.2 =
        [RemoteCall.getPageContent "d" "p"] ∧
      (coda_duplicate_page (failClient "boom") () "d" "p" "n").2.2.countP
        isCreatePage = 0) ∧
    (coda_duplicate_page (constClient (some "body")) () "d" "p" "n").2.2 =
      [RemoteCall.getPageContent "d" "p",
       RemoteCall.createPage "d" (duplicatePageBodyOf "n" (some "body"))] :=
  ⟨C5_duplicate_no_create_on_failed_read.1 Unit (failClient "boom") () ()
      "d" "p" "n" "boom" rfl,
    C5_duplicate_no_create_on_failed_read.2 Unit (constClient (some "body"))
      () () "d" "p" "n" (some "body") rfl⟩

/-- C6: the code does not fail fast.  With `CODA_API_TOKEN` absent from
the environment, `config.ts` stores `undefined` in `config.codaApiToken`
(the `!` is only a type-level assertion), startup still proceeds and
installs the header `Bearer undefined` on the remote client, and for no
environment does startup exit before accepting sessions — contradicting
the claimed `ConfigurationError` process exit. -/
theorem C6_startup_proceeds_without_credential :
    configOf (fun _ => none) = ⟨none⟩ ∧
    startupOf (fun _ => none) = ⟨false, "Bearer undefined"⟩ ∧
    (∀ env : String → Option String,
      (startupOf env).exitedBeforeSessions = false) :=
  ⟨rfl, rfl, fun _ => rfl⟩

/-- C7: the update sent by `coda_rename_page` carries only the new name: the
body's `contentUpdate` field is absent (hence no content and no insertion
mode), so the page's content is untouched. -/
theorem C7_rename_metadata_only :
    ∀ (σ : Type) (c : RemoteClient σ) (s : σ) (d p nm : String),
      (coda_rename_page c s d p nm).2.2 =
        [RemoteCall.updatePage d p ⟨some nm, none⟩] ∧
      (renamePageBodyOf nm).contentUpdate = none ∧
      (renamePageBodyOf nm).name = some nm := by
  intro σ c s d p nm
  exact ⟨rfl, rfl, rfl⟩

/-- C8 (counterexample): with the shared secret set to the empty string and
the token query parameter missing, the gate admits the request and opens
a session instead of answering 401: `if (expectedToken)` tests JS
truthiness, and the empty string is falsy, so the whole check is
skipped. -/
theorem C8_empty_secret_counterexample :
    mcpGate (some "") none = ⟨none, true⟩ ∧
    (mcpGate (some "") none).status ≠ some 401 ∧
    (mcpGate (some "") none).sessionOpened = true := by
  exact ⟨rfl, by decide, rfl⟩

/-- C8 (amended): when the shared secret is unset (or empty, which JS
truthiness treats the same), every request is admitted; when the secret
is set to a non-empty value, a missing token or a token unequal to the
secret is answered with status 401 and no session is opened, and the
matching token proceeds. -/
theorem C8_auth_gate :
    (∀ p : Option String, mcpGate none p = ⟨none, true⟩) ∧
    (∀ s : String, s ≠ "" → mcpGate (some s) none = ⟨some 401, false⟩) ∧
    (∀ s t : String, s ≠ "" → t ≠ s →
      mcpGate (some s) (some t) = ⟨some 401, false⟩) ∧
    (∀ s : String, s ≠ "" → mcpGate (some s) (some s) = ⟨none, true⟩) := by
  refine ⟨fun p => rfl, ?_, ?_, ?_⟩
  · intro s hs
    simp [mcpGate, truthy, hs]
  · intro s t hs ht
    rcases eq_or_ne t "" with rfl | ht0
    · simp [mcpGate, truthy, hs]
    · simp [mcpGate, truthy, hs, ht0, ht]
  · intro s hs
    simp [mcpGate, truthy, hs]

/-- Witness for C8: the amended statement applied at the secret
`"s3cret"`, with a missing token, the wrong token `"wrong"`, and the
matching token. -/
theorem C8_auth_gate_witness :
    mcpGate none none = ⟨none, true⟩ ∧
    mcpGate (some "s3cret") none = ⟨some 401, false⟩ ∧
    mcpGate (some "s3cret") (some "wrong") = ⟨some 401, false⟩ ∧
    mcpGate (some "s3cret") (some "s3cret") = ⟨none, true⟩ :=
  ⟨C8_auth_gate.1 none,
    C8_auth_gate.2.1 "s3cret" (by decide),
    C8_auth_gate.2.2.1 "s3cret" "wrong" (by decide) (by decide),
    C8_auth_gate.2.2.2 "s3cret" (by decide)⟩

/-- C9: against the storing stub remote client, `coda_replace_page_content`
with text `t` followed by `coda_get_page_content` on the same document
and page returns exactly `t`, from any starting stub state. -/
theorem C9_replace_get_roundtrip :
    ∀ (s : Option String) (d p t : String),
      (coda_replace_page_content stubClient s d p t).2.1.isError = false ∧
      (coda_get_page_content stubClient
        ((coda_replace_page_content stubClient s d p t).1) d p).2.1 =
        textResult t := by
  intro s d p t
  exact ⟨rfl, rfl⟩

/-- C10: `coda_get_page_content` and `coda_peek_page` disagree on empty
content: the former checks `content === undefined` only, so an
empty-string export yields a success result with empty text (and only an
undefined export yields its failure), while the latter checks
`!content`, so the empty string yields an error result whose cause is
the locally thrown unknown-error message. -/
theorem C10_empty_content_disagreement :
    (coda_get_page_content (constClient (some "")) () "d" "p").2.1 =
      textResult "" ∧
    (textResult "").isError = false ∧
    (coda_get_page_content (constClient none) () "d" "p").2.1 =
      errorResult "get page content" "Error: Unknown error occurred" ∧
    (coda_peek_page (constClient (some "")) () "d" "p" 3).2.1 =
      errorResult "peek page" "Error: Unknown error has occurred" ∧
    (errorResult "peek page" "Error: Unknown error has occurred").isError =
      true ∧
    resultText (errorResult "peek page" "Error: Unknown error has occurred") =
      "Failed to peek page: Error: Unknown error has occurred" := by
  exact ⟨rfl, rfl, rfl, rfl, rfl, by decide⟩

end CodaMcp
